import Mathlib

/-!
Verification of the ATR trailing-stop engine (`stoploss-ATR.py`).

Prices are modelled as rationals (`ℚ`).  A value that the Python code holds
as IEEE `NaN` (produced by `Close.shift()` at the first bar and propagated by
`np.maximum`) is modelled as `none : Option ℚ`; a defined float is `some q`.
A Python function that returns `None` (or raises an exception that the
caller's `try/except` converts to `None`) is modelled as an `Option` result.
-/

/-- One OHLC bar of the fetched series: the `High`, `Low` and `Close`
columns used by `calculate_atr_trailing_stop`. -/
structure Bar where
  high : ℚ
  low : ℚ
  close : ℚ
deriving DecidableEq, Repr

/-- The true-range value at row `i` of the series, following lines 40-43 of
the source: `high_low = High - Low`, `high_close = |High - Close.shift()|`,
`low_close = |Low - Close.shift()|`, `true_range = np.maximum(high_low,
np.maximum(high_close, low_close))`.  `Close.shift()` is `NaN` at row 0
(`none` here), and `np.maximum` propagates `NaN`, so row 0 yields `none`. -/
def trAt (s : List Bar) (i : ℕ) : Option ℚ :=
  match s[i]?, (if i = 0 then none else s[i - 1]?) with
  | some b, some prev =>
      some (max (b.high - b.low) (max |b.high - prev.close| |b.low - prev.close|))
  | some _, none => none
  | none, _ => none

/-- The `true_range` series (same index as the bar series). -/
def trueRange (s : List Bar) : List (Option ℚ) :=
  (List.range s.length).map (trAt s)

/-- Value at row `i` of `true_range.rolling(window=w, min_periods=1).mean()`
(line 44 of the source): the window covers rows `max(0, i+1-w) .. i`; the
mean is taken over the non-`NaN` values in the window, and the result is
`NaN` (`none`) when the window holds no non-`NaN` value. -/
def rollingMeanAt (tr : List (Option ℚ)) (w i : ℕ) : Option ℚ :=
  let vals := ((tr.take (i + 1)).drop (i + 1 - w)).filterMap id
  if vals.length = 0 then none else some (vals.sum / vals.length)

/-- The `atr` series: rolling mean of `true_range` (line 44 of the source). -/
def atr (s : List Bar) (w : ℕ) : List (Option ℚ) :=
  (List.range s.length).map (rollingMeanAt (trueRange s) w)

/-- The dict built by `calculate_atr_trailing_stop` on success (lines 51-56):
`current_price` is always a defined float (`Close.iloc[-1]` of a non-empty
series); `current_atr`, and hence the stop and the percentage, may be `NaN`
(when the whole last window of `true_range` is `NaN`). -/
structure StopResult where
  currentPrice : ℚ
  currentAtr : Option ℚ
  stopLoss : Option ℚ
  pctBelow : Option ℚ
deriving DecidableEq, Repr

/-- Body of `calculate_atr_trailing_stop` (lines 33-59) applied to an
already-fetched bar series, paired with the error messages it emits.
`data.empty` returns `None` with no message (lines 36-37).  When
`current_price = 0`, evaluating `(current_price - stop_loss)/current_price`
raises `ZeroDivisionError`, which the `except` clause turns into an
`st.error` message and a `None` result (lines 57-59).  Otherwise the result
dict is returned; a `NaN` `current_atr` flows into `stop_loss` and the
percentage unchanged. -/
def calcRun (s : List Bar) (m : ℚ) (p : ℕ) : Option StopResult × List String :=
  match s.getLast? with
  | none => (none, [])
  | some lastBar =>
    let currentPrice := lastBar.close
    let currentAtr : Option ℚ := ((atr s p).getLast?).join
    let stopLoss : Option ℚ := currentAtr.map (fun a => currentPrice - m * a)
    if currentPrice = 0 then
      (none, ["Error fetching data: float division by zero"])
    else
      (some { currentPrice := currentPrice
              currentAtr := currentAtr
              stopLoss := stopLoss
              pctBelow := stopLoss.map (fun sl => (currentPrice - sl) / currentPrice * 100) },
       [])

/-- The result component of `calculate_atr_trailing_stop`. -/
def calcCore (s : List Bar) (m : ℚ) (p : ℕ) : Option StopResult :=
  (calcRun s m p).1

/-- Embedding of `stop_loss = current_price - (multiplier * current_atr)` (line 49),
as a function of defined inputs. -/
def stopPrice (currentPrice currentAtr multiplier : ℚ) : ℚ :=
  currentPrice - multiplier * currentAtr

/-- Embedding of `'Percentage Below Current': ((current_price - stop_loss) / current_price) * 100`
(line 55), as a function of defined inputs. -/
def percentBelow (currentPrice currentAtr multiplier : ℚ) : ℚ :=
  (currentPrice - stopPrice currentPrice currentAtr multiplier) / currentPrice * 100

/-- The fetcher `fetch_ticker_data` (lines 17-29) seen from the pipeline: the external
provider call is an oracle `fetch : ticker → lookback → Except error series`;
on an exception the function emits the warning `Could not fetch {ticker}: ...`
and returns an empty series (lines 27-29).  Warnings are `(ticker, message)`
pairs. -/
def fetchModel (fetch : String → String → Except String (List Bar)) (t : String) :
    List Bar × List (String × String) :=
  match fetch t "6mo" with
  | .ok s => (s, [])
  | .error e => ([], [(t, e)])

/-- The full `calculate_atr_trailing_stop(ticker, multiplier, period)` including its
fetch (line 34): the bar series is always fetched with `period='6mo'`,
whatever the configured ATR `period`. -/
def analyzeEntry (fetch : String → String → Except String (List Bar)) (t : String)
    (m : ℚ) (p : ℕ) : Option StopResult × List (String × String) :=
  let fr := fetchModel fetch t
  let cr := calcRun fr.1 m p
  (cr.1, fr.2 ++ cr.2.map (fun msg => (t, msg)))

/-- The bar series that the ATR of `calculate_atr_trailing_stop` is computed
over.  Line 34 passes the literal `period='6mo'` to `fetch_ticker_data`, so
the configured ATR `period` (the last argument here) plays no role in the
fetch. -/
def dataUsed (fetch : String → String → Except String (List Bar)) (t : String)
    (period : ℕ) : List Bar :=
  (fetchModel fetch t).1

/-- One row of the analysis-results table: the success dict of
`calculate_atr_trailing_stop` extended with the `Asset` description and the
`Ticker` (lines 127-128). -/
structure RowResult where
  asset : String
  ticker : String
  res : StopResult
deriving DecidableEq, Repr

/-- The analysis loop (lines 121-131): iterate the watchlist in order; a
`None` result is skipped, a non-`None` result is appended; every warning
emitted along the way is collected.  The loop body catches all failures, so
the fold is total: the run never aborts. -/
def runPipeline (fetch : String → String → Except String (List Bar))
    (entries : List (String × String)) (m : ℚ) (p : ℕ) :
    List RowResult × List (String × String) :=
  entries.foldl
    (fun acc e =>
      let r := analyzeEntry fetch e.1 m p
      ((match r.1 with
        | some res => acc.1 ++ [⟨e.2, e.1, res⟩]
        | none => acc.1),
       acc.2 ++ r.2))
    ([], [])

/-- Python's `str.upper()` on one character, restricted to the ASCII range
(characters are modelled as Unicode code points). -/
def pyUpperChar (c : ℕ) : ℕ :=
  if 97 ≤ c ∧ c ≤ 122 then c - 32 else c

/-- Embedding of `new_ticker.upper()` (line 94): ticker symbols are modelled as lists of
code points. -/
def pyUpper (s : List ℕ) : List ℕ :=
  s.map pyUpperChar

/-- A watchlist entry: `(ticker, description)` tuple of the source. -/
structure Entry where
  symbol : List ℕ
  label : String
deriving DecidableEq, Repr

/-- The `default_tickers` list (lines 74-80): SGLN.L, IWRD.L, VWRL.L,
IUKD.L, BCOG.L with their descriptions, symbols as code points. -/
def default_tickers : List Entry :=
  [⟨[83, 71, 76, 78, 46, 76], "Physical Gold ETF"⟩,
   ⟨[73, 87, 82, 68, 46, 76], "iShares World ETF"⟩,
   ⟨[86, 87, 82, 76, 46, 76], "Vanguard World ETF"⟩,
   ⟨[73, 85, 75, 68, 46, 76], "UKD ETF"⟩,
   ⟨[66, 67, 79, 71, 46, 76], "Commodities ETF"⟩]

/-- The watchlist mutations of the sidebar: add (lines 92-96) and remove
(lines 104-109). -/
inductive WatchOp where
  | add (symbol : List ℕ) (label : String)
  | remove (i : ℕ)

/-- One mutation step.  `add` appends `(ticker.upper(), description)` only
when both fields are non-empty (line 93); `remove i` is `tickers.pop(i)`,
called with an in-range index by the loop that produced it (out-of-range
`eraseIdx` leaves the list unchanged where Python would raise, which no
source path reaches). -/
def applyOp (w : List Entry) : WatchOp → List Entry
  | .add s l => if s ≠ [] ∧ l ≠ "" then w ++ [⟨pyUpper s, l⟩] else w
  | .remove i => w.eraseIdx i

/-- A sequence of sidebar mutations applied in order. -/
def applyOps (w : List Entry) (ops : List WatchOp) : List Entry :=
  ops.foldl applyOp w

/-- The Reset-to-Defaults handler (lines 112-113):
`st.session_state.tickers = default_tickers.copy()` — a total replacement
of the current list. -/
def resetToDefault (w : List Entry) : List Entry :=
  default_tickers

/-- A symbol is uppercase: it holds no lowercase ASCII letter. -/
def isUpperSym (s : List ℕ) : Prop :=
  ∀ c ∈ s, ¬(97 ≤ c ∧ c ≤ 122)

/-- The 3-bar example series of the spec: High/Low/Close =
[10,10,10], [10,10,10], [12,8,10]. -/
def exampleBars : List Bar :=
  [⟨10, 10, 10⟩, ⟨10, 10, 10⟩, ⟨12, 8, 10⟩]

/-! ## Helper lemmas -/

/-- The true-range value at row 0 is always `NaN`: the prior close is absent
there and `np.maximum` propagates the resulting `NaN`. -/
theorem trAt_zero (s : List Bar) : trAt s 0 = none := by
  unfold trAt
  cases h : s[0]? <;> simp [h]

/-- Indexing into the true-range series below the length hits `trAt`. -/
theorem getElem?_trueRange (s : List Bar) (i : ℕ) (h : i < s.length) :
    (trueRange s)[i]? = some (trAt s i) := by
  simp [trueRange, List.getElem?_range h]

/-- The `true_range` series has the same length as the bar series. -/
theorem length_trueRange (s : List Bar) : (trueRange s).length = s.length := by
  simp [trueRange]

/-- The `atr` series has the same length as the bar series. -/
theorem length_atr (s : List Bar) (w : ℕ) : (atr s w).length = s.length := by
  simp [atr]

/-- Running `calculate_atr_trailing_stop` on an empty series: `None`, no message. -/
theorem calcRun_nil (m : ℚ) (p : ℕ) : calcRun [] m p = (none, []) := rfl

/-- Evaluation of the spec's example: the code yields `true_range`
= `[NaN, 0, 4]`, not `[0, 0, 4]`. -/
theorem trueRange_exampleBars : trueRange exampleBars = [none, some 0, some 4] := by
  norm_num [trueRange, trAt, exampleBars, List.range_succ]

/-- Evaluation of the spec's example: the rolling mean skips the leading
`NaN`, so the ATR series is `[NaN, 0, 2]` — the last value is `(0+4)/2 = 2`,
not `(0+0+4)/3`. -/
theorem atr_exampleBars : atr exampleBars 3 = [none, some 0, some 2] := by
  norm_num [atr, rollingMeanAt, trueRange, trAt, exampleBars, List.range_succ,
    List.filterMap_cons, List.filterMap_nil]

/-- Evaluation of the spec's example through the whole calculation with
multiplier 4: stop `10 - 4*2 = 2`, percentage `(10-2)/10*100 = 80`. -/
theorem calcCore_exampleBars :
    calcCore exampleBars 4 3 = some ⟨10, some 2, some 2, some 80⟩ := by
  norm_num [calcCore, calcRun, atr, rollingMeanAt, trueRange, trAt, exampleBars,
    List.range_succ, List.filterMap_cons, List.filterMap_nil]

/-! ## Claims -/

/-- C1 (counterexample): on the spec's 3-bar example the code does not
produce True Range `[0,0,4]`, and with window 3 and multiplier 4 the
percentage below current is not `160/3 ≈ 53.33`: the first True Range is
`NaN`, the last ATR is `2`, and the percentage is `80`. -/
theorem C1_counterexample :
    trueRange exampleBars ≠ [some 0, some 0, some 4] ∧
    (calcCore exampleBars 4 3).map StopResult.pctBelow ≠ some (some (160 / 3)) := by
  constructor
  · rw [trueRange_exampleBars]
    decide
  · rw [calcCore_exampleBars]
    norm_num

/-- C1 (amended): on the 3-bar example with window 3 the computed True Range
series is `[NaN, 0, 4]`, the ATR series is `[NaN, 0, 2]` (the rolling mean
skips the leading `NaN`), and with multiplier 4 the stop price is
`10 - 4*2 = 2` and the percentage below current is `80`. -/
theorem C1_example_end_to_end :
    trueRange exampleBars = [none, some 0, some 4] ∧
    atr exampleBars 3 = [none, some 0, some 2] ∧
    calcCore exampleBars 4 3 = some ⟨10, some 2, some 2, some 80⟩ :=
  ⟨trueRange_exampleBars, atr_exampleBars, calcCore_exampleBars⟩

/-- C2 (counterexample): for the one-bar series High/Low/Close = 12/8/10 the
first True Range is not `high[0] - low[0] = 4`: it is `NaN`. -/
theorem C2_counterexample :
    trueRange [⟨12, 8, 10⟩] ≠ [some ((12 : ℚ) - 8)] ∧
    trueRange [⟨12, 8, 10⟩] = [none] := by
  have h : trueRange [⟨12, 8, 10⟩] = [none] := by
    norm_num [trueRange, trAt, List.range_succ]
  exact ⟨by rw [h]; decide, h⟩

/-- C2 (amended): for every non-empty bar series the True Range computed for
the first bar is `NaN` (`none`): the shifted prior close is `NaN` there and
`np.maximum` propagates it, so the `high[0]-low[0]` term is discarded rather
than returned. -/
theorem C2_first_bar_nan (b : Bar) (rest : List Bar) :
    (trueRange (b :: rest))[0]? = some none := by
  rw [getElem?_trueRange _ 0 (by simp), trAt_zero]

/-- C3: for every single-bar series and every configured window, the ATR
series equals the True Range series of that single bar (both are `[NaN]`:
the lone True Range is `NaN` and the rolling mean of a window holding only
`NaN` is `NaN`). -/
theorem C3_single_bar (b : Bar) (w : ℕ) : atr [b] w = trueRange [b] := by
  cases w with
  | zero => rfl
  | succ n =>
      simp [atr, trueRange, rollingMeanAt, trAt_zero, Nat.succ_sub_succ, List.range_succ]

/-- C5 (counterexample): `percentBelow` is not monotonically increasing in
the multiplier for every `currentAtr`, nor in `currentAtr` for every
multiplier: at price 1 and ATR `-1` it strictly decreases as the multiplier
grows from 1 to 2, and at price 1 and multiplier `-1` it strictly decreases
as the ATR grows from 1 to 2. -/
theorem C5_counterexample :
    percentBelow 1 (-1) 2 < percentBelow 1 (-1) 1 ∧
    percentBelow 1 2 (-1) < percentBelow 1 1 (-1) := by
  constructor <;> norm_num [percentBelow, stopPrice]

/-- C5 (amended): for every price `p > 0` the derived percentage equals
`multiplier * currentAtr / p * 100`; it is monotonically increasing in the
multiplier whenever `currentAtr ≥ 0` (which the ATR of a bar series always
is), and in `currentAtr` whenever the multiplier is nonnegative. -/
theorem C5_percent_formula (p : ℚ) (hp : 0 < p) :
    (∀ a m, percentBelow p a m = m * a / p * 100) ∧
    (∀ a m₁ m₂, 0 ≤ a → m₁ ≤ m₂ → percentBelow p a m₁ ≤ percentBelow p a m₂) ∧
    (∀ m a₁ a₂, 0 ≤ m → a₁ ≤ a₂ → percentBelow p a₁ m ≤ percentBelow p a₂ m) := by
  have he : ∀ a m, percentBelow p a m = m * a / p * 100 := by
    intro a m
    unfold percentBelow stopPrice
    ring
  refine ⟨he, ?_, ?_⟩
  · intro a m₁ m₂ ha hm
    rw [he, he]
    gcongr
  · intro m a₁ a₂ hm ha
    rw [he, he]
    gcongr

/-- C5 (witness): the amended statement at price 2, ATR 3, multipliers 4 ≤ 5. -/
theorem C5_witness :
    percentBelow 2 3 4 = 4 * 3 / 2 * 100 ∧ percentBelow 2 3 4 ≤ percentBelow 2 3 5 :=
  ⟨(C5_percent_formula 2 (by decide)).1 3 4,
   (C5_percent_formula 2 (by decide)).2.1 3 4 5 (by decide) (by decide)⟩

/-- C6: whenever the last close (the current price) of the fetched series is
0, the calculation raises `ZeroDivisionError` at the percentage division,
the `except` clause reports the failure, and the entry yields no result —
no `NaN`/`Infinity` percentage reaches the result set. -/
theorem C6_zero_price_guard (s : List Bar) (m : ℚ) (p : ℕ) (b : Bar)
    (h1 : s.getLast? = some b) (h2 : b.close = 0) :
    calcRun s m p = (none, ["Error fetching data: float division by zero"]) := by
  unfold calcRun
  rw [h1]
  simp [h2]

/-- C6 (witness): a one-bar series whose close is 0 yields no result and one
error message. -/
theorem C6_witness :
    calcRun [⟨1, 0, 0⟩] 4 7 = (none, ["Error fetching data: float division by zero"]) :=
  C6_zero_price_guard [⟨1, 0, 0⟩] 4 7 ⟨1, 0, 0⟩ rfl rfl

/-- C7: for a 3-entry watchlist where the second entry's fetch raises and
the first and third analyze successfully, the run is a total function that
returns exactly the two results for entries 1 and 3 (in order) and exactly
the one fetch warning for entry 2; no exception escapes the loop. -/
theorem C7_failure_isolation (fetch : String → String → Except String (List Bar))
    (t₁ d₁ t₂ d₂ t₃ d₃ : String) (m : ℚ) (p : ℕ) (s₁ s₃ : List Bar) (e : String)
    (r₁ r₃ : StopResult)
    (h₁ : fetch t₁ "6mo" = .ok s₁) (h₂ : fetch t₂ "6mo" = .error e)
    (h₃ : fetch t₃ "6mo" = .ok s₃)
    (hc₁ : calcRun s₁ m p = (some r₁, [])) (hc₃ : calcRun s₃ m p = (some r₃, [])) :
    runPipeline fetch [(t₁, d₁), (t₂, d₂), (t₃, d₃)] m p =
      ([⟨d₁, t₁, r₁⟩, ⟨d₃, t₃, r₃⟩], [(t₂, e)]) := by
  simp [runPipeline, analyzeEntry, fetchModel, h₁, h₂, h₃, hc₁, hc₃, calcRun_nil]

/-- C7 (witness): a concrete provider failing exactly on ticker B. -/
theorem C7_witness :
    runPipeline (fun t _ => if t = "B" then Except.error "boom" else Except.ok exampleBars)
      [("A", "Asset A"), ("B", "Asset B"), ("C", "Asset C")] 4 3 =
      ([⟨"Asset A", "A", ⟨10, some 2, some 2, some 80⟩⟩,
        ⟨"Asset C", "C", ⟨10, some 2, some 2, some 80⟩⟩],
       [("B", "boom")]) :=
  C7_failure_isolation _ "A" "Asset A" "B" "Asset B" "C" "Asset C" 4 3
    exampleBars exampleBars "boom" ⟨10, some 2, some 2, some 80⟩ ⟨10, some 2, some 2, some 80⟩
    (by simp) (by simp) (by simp)
    (by norm_num [calcRun, atr, rollingMeanAt, trueRange, trAt, exampleBars,
      List.range_succ, List.filterMap_cons, List.filterMap_nil])
    (by norm_num [calcRun, atr, rollingMeanAt, trueRange, trAt, exampleBars,
      List.range_succ, List.filterMap_cons, List.filterMap_nil])

/-- C8: after any sequence of add and remove operations starting from the
default watchlist, `resetToDefault` yields a list identical — same order,
same (symbol, label) contents — to the default set, which has 5 entries. -/
theorem C8_reset_exact (ops : List WatchOp) :
    resetToDefault (applyOps default_tickers ops) = default_tickers ∧
    default_tickers.length = 5 :=
  ⟨rfl, rfl⟩

/-- Adding uppercases the symbol, so the added entry is uppercase. -/
theorem isUpperSym_pyUpper (s : List ℕ) : isUpperSym (pyUpper s) := by
  intro c hc
  simp only [pyUpper, List.mem_map] at hc
  obtain ⟨a, _, rfl⟩ := hc
  unfold pyUpperChar
  split <;> omega

/-- Every symbol of the watchlist is uppercase. -/
def WatchInv (w : List Entry) : Prop :=
  ∀ e ∈ w, isUpperSym e.symbol

/-- The five default symbols are uppercase. -/
theorem watchInv_default : WatchInv default_tickers := by
  unfold WatchInv isUpperSym default_tickers
  decide

/-- One add or remove preserves the uppercase invariant. -/
theorem watchInv_applyOp (w : List Entry) (op : WatchOp) (h : WatchInv w) :
    WatchInv (applyOp w op) := by
  cases op with
  | add s l =>
      simp only [applyOp]
      split
      · intro e he
        rcases List.mem_append.1 he with h1 | h1
        · exact h e h1
        · simp only [List.mem_singleton] at h1
          subst h1
          exact isUpperSym_pyUpper s
      · exact h
  | remove i =>
      intro e he
      exact h e (List.eraseIdx_subset w i he)

/-- Any sequence of adds and removes preserves the uppercase invariant. -/
theorem watchInv_applyOps (ops : List WatchOp) (w : List Entry) (h : WatchInv w) :
    WatchInv (applyOps w ops) := by
  induction ops generalizing w with
  | nil => exact h
  | cons op ops ih => exact ih (applyOp w op) (watchInv_applyOp w op h)

/-- C9: every symbol stored in the watchlist after any sequence of add and
remove operations on the default list is uppercase: add uppercases the
entered ticker before appending, all default entries are uppercase, and
remove only deletes. -/
theorem C9_symbols_uppercase (ops : List WatchOp) (e : Entry)
    (he : e ∈ applyOps default_tickers ops) : isUpperSym e.symbol :=
  watchInv_applyOps ops default_tickers watchInv_default e he

/-- C9 (witness): after adding the lowercase ticker "ab" (code points 97,
98), the stored entry carries the uppercase symbol "AB" (65, 66). -/
theorem C9_witness : isUpperSym [65, 66] :=
  C9_symbols_uppercase [.add [97, 98] "x"] ⟨[65, 66], "x"⟩ (by decide)

/-- C10: the bar series fetched by the per-entry analysis — and hence the
data its ATR is computed over — does not depend on the configured ATR
period: line 34 always fetches with the fixed 6-month lookback. -/
theorem C10_lookback_fixed (fetch : String → String → Except String (List Bar))
    (t : String) (m : ℚ) (p₁ p₂ : ℕ) :
    dataUsed fetch t p₁ = dataUsed fetch t p₂ ∧
    (analyzeEntry fetch t m p₁).1 = calcCore (dataUsed fetch t p₁) m p₁ :=
  ⟨rfl, rfl⟩

/-- On a series of identical bars, true range at any row past the first is
the range formula on that repeated bar. -/
theorem trAt_replicate (b : Bar) (n i : ℕ) (h1 : 1 ≤ i) (h2 : i < n) :
    trAt (List.replicate n b) i =
      some (max (b.high - b.low) (max |b.high - b.close| |b.low - b.close|)) := by
  unfold trAt
  rw [List.getElem?_replicate_of_lt h2, if_neg (by omega),
    List.getElem?_replicate_of_lt (show i - 1 < n by omega)]

/-- On a constant-price series every true range past the first row is 0. -/
theorem trAt_const (p : ℚ) (n i : ℕ) (h1 : 1 ≤ i) (h2 : i < n) :
    trAt (List.replicate n (⟨p, p, p⟩ : Bar)) i = some 0 := by
  rw [trAt_replicate _ n i h1 h2]
  norm_num

/-- Every value of the constant-price true-range series is `NaN` or 0. -/
theorem trueRange_const_mem (p : ℚ) (n : ℕ) (o : Option ℚ)
    (ho : o ∈ trueRange (List.replicate n (⟨p, p, p⟩ : Bar))) :
    o = none ∨ o = some 0 := by
  unfold trueRange at ho
  rw [List.mem_map] at ho
  obtain ⟨i, hi, rfl⟩ := ho
  rw [List.mem_range, List.length_replicate] at hi
  rcases Nat.eq_zero_or_pos i with h0 | h0
  · subst h0
    exact Or.inl (trAt_zero _)
  · exact Or.inr (trAt_const p n i h0 hi)

/-- A rolling-mean window whose observed values are all 0 (and non-empty)
has mean 0. -/
theorem rollingMeanAt_zeros (tr : List (Option ℚ)) (w i : ℕ)
    (h0 : (0 : ℚ) ∈ ((tr.take (i + 1)).drop (i + 1 - w)).filterMap id)
    (hall : ∀ x ∈ ((tr.take (i + 1)).drop (i + 1 - w)).filterMap id, x = (0 : ℚ)) :
    rollingMeanAt tr w i = some 0 := by
  have hlen : ¬(((tr.take (i + 1)).drop (i + 1 - w)).filterMap id).length = 0 := by
    simp only [List.length_eq_zero]
    exact List.ne_nil_of_mem h0
  simp only [rollingMeanAt, if_neg hlen, List.sum_eq_zero hall, zero_div]

/-- The last ATR value of a constant-price series of length at least 2 is 0
for every positive window: the last window always holds the last true range
(which is 0), the leading `NaN` is skipped, and all observed values are 0. -/
theorem atr_const_last (p : ℚ) (n w : ℕ) (hn : 2 ≤ n) (hw : 1 ≤ w) :
    (atr (List.replicate n (⟨p, p, p⟩ : Bar)) w).getLast? = some (some 0) := by
  have hlen : (List.replicate n (⟨p, p, p⟩ : Bar)).length = n := List.length_replicate n _
  have hlen2 : (atr (List.replicate n (⟨p, p, p⟩ : Bar)) w).length = n := by
    rw [length_atr, hlen]
  have hidx : n - 1 < n := by omega
  rw [List.getLast?_eq_getElem?, hlen2]
  have h1 : (atr (List.replicate n (⟨p, p, p⟩ : Bar)) w)[n - 1]? =
      some (rollingMeanAt (trueRange (List.replicate n (⟨p, p, p⟩ : Bar))) w (n - 1)) := by
    simp [atr, hlen, List.getElem?_range hidx]
  rw [h1]
  set tr := trueRange (List.replicate n (⟨p, p, p⟩ : Bar)) with htr
  have htrlen : tr.length = n := by rw [htr, length_trueRange, hlen]
  have htake : tr.take (n - 1 + 1) = tr := by
    rw [show n - 1 + 1 = n from by omega, ← htrlen, List.take_length]
  have hmem : (0 : ℚ) ∈ ((tr.take (n - 1 + 1)).drop (n - 1 + 1 - w)).filterMap id := by
    rw [htake, List.mem_filterMap]
    refine ⟨some 0, ?_, rfl⟩
    have hget : (tr.drop (n - 1 + 1 - w))[(n - 1) - (n - 1 + 1 - w)]? = some (some 0) := by
      rw [List.getElem?_drop,
        show (n - 1 + 1 - w) + ((n - 1) - (n - 1 + 1 - w)) = n - 1 from by omega, htr,
        getElem?_trueRange _ _ (by rw [hlen]; omega), trAt_const p n (n - 1) (by omega) hidx]
    exact List.getElem?_mem hget
  have hall : ∀ x ∈ ((tr.take (n - 1 + 1)).drop (n - 1 + 1 - w)).filterMap id, x = (0 : ℚ) := by
    intro x hx
    rw [htake, List.mem_filterMap] at hx
    obtain ⟨o, ho, hid⟩ := hx
    have hotr : o ∈ tr := List.drop_subset _ _ ho
    rcases trueRange_const_mem p n o (htr ▸ hotr) with rfl | rfl
    · exact Option.noConfusion hid
    · exact (Option.some.inj hid).symm
  rw [rollingMeanAt_zeros tr w (n - 1) hmem hall]

/-- C4 (counterexample): a 2-bar series with high = low = close on every bar
does not have True Range 0 on every bar: the first bar's True Range is `NaN`,
and when the (degenerate) price moves between bars the second bar's True
Range is the gap, not 0. -/
theorem C4_counterexample :
    trueRange [⟨10, 10, 10⟩, ⟨20, 20, 20⟩] ≠ [some 0, some 0] ∧
    trueRange [⟨10, 10, 10⟩, ⟨20, 20, 20⟩] = [none, some 10] := by
  have h : trueRange [⟨10, 10, 10⟩, ⟨20, 20, 20⟩] = [none, some 10] := by
    norm_num [trueRange, trAt, List.range_succ]
  exact ⟨by rw [h]; decide, h⟩

/-- C4 (amended): for a constant-price series (every bar sharing the same
high = low = close = p ≠ 0) of length ≥ 2 and any window ≥ 1, the True Range
is `NaN` at the first bar and 0 at every later bar, the final ATR is 0, the
stop price equals the current price p, and the percentage below current is
0. -/
theorem C4_zero_volatility (p m : ℚ) (c w i : ℕ) (hp : p ≠ 0) (hw : 1 ≤ w)
    (hi1 : 1 ≤ i) (hi2 : i < c + 2) :
    (trueRange (List.replicate (c + 2) (⟨p, p, p⟩ : Bar)))[0]? = some none ∧
    (trueRange (List.replicate (c + 2) (⟨p, p, p⟩ : Bar)))[i]? = some (some 0) ∧
    calcCore (List.replicate (c + 2) (⟨p, p, p⟩ : Bar)) m w =
      some ⟨p, some 0, some p, some 0⟩ := by
  refine ⟨?_, ?_, ?_⟩
  · rw [getElem?_trueRange _ 0 (by simp), trAt_zero]
  · rw [getElem?_trueRange _ i (by simpa using hi2), trAt_const p (c + 2) i hi1 hi2]
  · unfold calcCore calcRun
    have hlast : (List.replicate (c + 2) (⟨p, p, p⟩ : Bar)).getLast? = some ⟨p, p, p⟩ := by
      rw [List.getLast?_eq_getElem?, List.length_replicate]
      exact List.getElem?_replicate_of_lt (by omega)
    rw [hlast, atr_const_last p (c + 2) w (by omega) hw]
    simp [hp]

/-- C4 (witness): the amended statement on the 2-bar constant series at
price 10, multiplier 4, window 7, checked at bar index 1. -/
theorem C4_witness :
    (trueRange (List.replicate 2 (⟨10, 10, 10⟩ : Bar)))[0]? = some none ∧
    (trueRange (List.replicate 2 (⟨10, 10, 10⟩ : Bar)))[1]? = some (some 0) ∧
    calcCore (List.replicate 2 (⟨10, 10, 10⟩ : Bar)) 4 7 =
      some ⟨10, some 0, some 10, some 0⟩ :=
  C4_zero_volatility 10 4 0 7 1 (by decide) (by decide) (by decide) (by decide)
